import Mathlib

/-!
Shallow embedding of the image-embedding-api repository (two HTTP route
handlers, `src/api/embed.ts` and `src/api/describe.ts`) and proofs of the
behavioural claims about them.

External effects (the dynamic library import, model loads, tokenization,
inference, image decoding, the chat-completion call) are modelled by an
environment record whose fields give each effect's outcome (`Except JsError`
for operations that can throw).  Each handler is a pure Lean function of the
environment and the decoded request, returning the HTTP response it would
produce together with a trace of the observable external calls it made, in
order.  JavaScript `undefined`/string distinctions are modelled with
`Option String`, and JS truthiness of strings (`""` is falsy) with
`jsTruthy`.  Numeric embedding vectors are abstract: the scalar type is a
type parameter, since no claim depends on floating-point values.
-/

/-- A thrown JavaScript value: `some m` is an `Error` with `message` `m`,
`none` is a thrown value with no `message` (so `err?.message` is undefined). -/
def JsError : Type := Option String

/-- `err?.message ?? fallback`: the message of the thrown value, or the
fallback when it has none. -/
def jsMessage (e : JsError) (fallback : String) : String :=
  e.getD fallback

/-- JS truthiness of an optional string field: `undefined` and `""` are
falsy, every other string is truthy. -/
def jsTruthy : Option String → Bool
  | none => false
  | some s => s ≠ ""

/-- JS `a || b` on strings: returns `b` exactly when `a` is the empty
string (the only falsy string). -/
def jsStringOr (a b : String) : String :=
  if a = "" then b else a

/-- The JSON body of an embedding request
(`{ text?: string, image_url?: string, image_base64?: string }`,
`src/api/embed.ts` lines 52-56). -/
structure Body where
  text : Option String
  image_url : Option String
  image_base64 : Option String

/-- The success payload of the embedding endpoint
(`{ text_embedding?: number[]; image_embedding?: number[] }`,
`src/api/embed.ts` line 62); a field is `none` when the corresponding
branch did not run. -/
structure EmbedOut (α : Type) where
  text_embedding : Option (List α)
  image_embedding : Option (List α)
deriving DecidableEq

/-- Body of an embedding-endpoint HTTP response: either the JSON-serialized
`EmbedOut` or an `{"error": msg}` object. -/
inductive EmbedRespBody (α : Type) where
  | out (o : EmbedOut α)
  | err (msg : String)
deriving DecidableEq

/-- An HTTP response of the embedding endpoint: status code and JSON body. -/
structure EmbedResponse (α : Type) where
  status : Nat
  body : EmbedRespBody α
deriving DecidableEq

/-- Observable external calls made by the embedding handler, in order. -/
inductive EmbedEffect where
  | initModels
  | tokenizeText (t : String)
  | runTextModel
  | readImage (src : String)
  | runProcessor
  | runVisionModel
deriving DecidableEq

/-- Outcomes of the embedding handler's external operations.  `α` is the
scalar type of embedding vectors; `Tok`, `Img`, `Inp` are the opaque types
of tokenizer output, decoded image, and processor output. -/
structure EmbedEnv (α Tok Img Inp : Type) where
  /-- Outcome of `await getTransformers()` inside `initializeModels`:
  `some e` when the dynamic `import('@xenova/transformers')` rejects. -/
  importThrows : Option JsError
  /-- Outcome of `await Promise.all([tokenizerPromise, textModelPromise])`:
  `some e` when either load rejects. -/
  loadTextThrows : Option JsError
  /-- `tok([text], { padding: true, truncation: true })`. -/
  tokenize : String → Except JsError Tok
  /-- `await textModel(inputs)`, projected to `Array.from(text_embeds.data)`. -/
  textModel : Tok → Except JsError (List α)
  /-- Outcome of `await Promise.all([processorPromise, visionModelPromise])`. -/
  loadVisionThrows : Option JsError
  /-- `await RawImage.read(src)` for the given source string. -/
  readImage : String → Except JsError Img
  /-- `await proc(image)`. -/
  processor : Img → Except JsError Inp
  /-- `await visionModel(image_inputs)`, projected to
  `Array.from(image_embeds.data)`. -/
  visionModel : Inp → Except JsError (List α)

/-- The text branch of the embedding handler (`src/api/embed.ts` lines
68-73): await the two memoized loads, tokenize, run the text model.
Returns the result and the trace of calls made before returning/throwing. -/
def textBranch {α Tok Img Inp : Type} (env : EmbedEnv α Tok Img Inp)
    (t : String) : Except JsError (List α) × List EmbedEffect :=
  match env.loadTextThrows with
  | some e => (.error e, [])
  | none =>
    match env.tokenize t with
    | .error e => (.error e, [.tokenizeText t])
    | .ok tok =>
      match env.textModel tok with
      | .error e => (.error e, [.tokenizeText t, .runTextModel])
      | .ok v => (.ok v, [.tokenizeText t, .runTextModel])

/-- The string passed to `RawImage.read` in the image branch
(`src/api/embed.ts` lines 80-88): the URL when `image_url` is truthy,
otherwise a data URL synthesized from `image_base64` with a hardcoded
`image/jpeg` MIME type. -/
def imageSrc (body : Body) : String :=
  if jsTruthy body.image_url then body.image_url.getD ""
  else "data:image/jpeg;base64," ++ body.image_base64.getD ""

/-- The image branch of the embedding handler (`src/api/embed.ts` lines
76-93): await the two memoized loads, read the image from `src`, run the
processor, run the vision model. -/
def imageBranch {α Tok Img Inp : Type} (env : EmbedEnv α Tok Img Inp)
    (src : String) : Except JsError (List α) × List EmbedEffect :=
  match env.loadVisionThrows with
  | some e => (.error e, [])
  | none =>
    match env.readImage src with
    | .error e => (.error e, [.readImage src])
    | .ok img =>
      match env.processor img with
      | .error e => (.error e, [.readImage src, .runProcessor])
      | .ok inp =>
        match env.visionModel inp with
        | .error e => (.error e, [.readImage src, .runProcessor, .runVisionModel])
        | .ok v => (.ok v, [.readImage src, .runProcessor, .runVisionModel])

/-- Default 500 message of the embedding handler
(`err?.message ?? 'Failed to produce CLIP embeddings'`). -/
def embedFallbackMsg : String := "Failed to produce CLIP embeddings"

/-- The final response step of the embedding handler (`src/api/embed.ts`
lines 95-105): `!out.text_embedding && !out.image_embedding` is true exactly
when both fields are still `undefined` (a JS array, even empty, is truthy). -/
def finishEmbed {α : Type} (out : EmbedOut α) (tr : List EmbedEffect) :
    EmbedResponse α × List EmbedEffect :=
  if out.text_embedding.isNone && out.image_embedding.isNone then
    (⟨400, .err "Provide text, image_url, or image_base64."⟩, tr)
  else
    (⟨200, .out out⟩, tr)

/-- The image-branch guard and call (`src/api/embed.ts` lines 76-93) followed
by the response step, given the text branch's contribution `textEmb` and the
trace `tr` accumulated so far. -/
def embedAfterText {α Tok Img Inp : Type} (env : EmbedEnv α Tok Img Inp)
    (body : Body) (textEmb : Option (List α)) (tr : List EmbedEffect) :
    EmbedResponse α × List EmbedEffect :=
  if jsTruthy body.image_url || jsTruthy body.image_base64 then
    match imageBranch env (imageSrc body) with
    | (.error e, tr2) => (⟨500, .err (jsMessage e embedFallbackMsg)⟩, tr ++ tr2)
    | (.ok v, tr2) => finishEmbed ⟨textEmb, some v⟩ (tr ++ tr2)
  else
    finishEmbed ⟨textEmb, none⟩ tr

/-- The embedding handler `POST` (`src/api/embed.ts` lines 58-112).  The
request argument is the outcome of `await req.json()`.  Any thrown error is
caught and returned as a 500 with the error's message or the fallback. -/
def embedPOST {α Tok Img Inp : Type} (env : EmbedEnv α Tok Img Inp)
    (req : Except JsError Body) : EmbedResponse α × List EmbedEffect :=
  match req with
  | .error e => (⟨500, .err (jsMessage e embedFallbackMsg)⟩, [])
  | .ok body =>
    match env.importThrows with
    | some e => (⟨500, .err (jsMessage e embedFallbackMsg)⟩, [.initModels])
    | none =>
      match body.text with
      | some t =>
        match textBranch env t with
        | (.error e, tr) =>
          (⟨500, .err (jsMessage e embedFallbackMsg)⟩, .initModels :: tr)
        | (.ok v, tr) => embedAfterText env body (some v) (.initModels :: tr)
      | none => embedAfterText env body none [.initModels]

/-! ## The caption handler (`src/api/describe.ts`) -/

/-- The standard base64 alphabet used by `Buffer.toString('base64')`. -/
def base64Chars : List Char :=
  "ABCDEFGHIJKLMNOPQRSTUVWXYZabcdefghijklmnopqrstuvwxyz0123456789+/".toList

/-- The base64 character of a 6-bit value. -/
def sextet (n : Nat) : Char := base64Chars.getD (n % 64) 'A'

/-- RFC 4648 base64 encoding of a byte sequence with `=` padding, as
produced by `Buffer.toString('base64')`.  Bytes are `Nat`s taken mod 256. -/
def base64Encode : List Nat → String
  | [] => ""
  | [b0] =>
    let n := b0 % 256 * 65536
    String.mk [sextet (n / 262144), sextet (n / 4096 % 64)] ++ "=="
  | [b0, b1] =>
    let n := b0 % 256 * 65536 + b1 % 256 * 256
    String.mk [sextet (n / 262144), sextet (n / 4096 % 64), sextet (n / 64 % 64)] ++ "="
  | b0 :: b1 :: b2 :: rest =>
    let n := b0 % 256 * 65536 + b1 % 256 * 256 + b2 % 256
    String.mk [sextet (n / 262144), sextet (n / 4096 % 64), sextet (n / 64 % 64),
      sextet (n % 64)] ++ base64Encode rest

/-- An uploaded `File`: its raw bytes (`await file.arrayBuffer()`) and its
declared MIME type string (`file.type`, `""` when the upload declares none). -/
structure UploadFile where
  bytes : List Nat
  type : String

/-- Result of `convertFileToBase64`. -/
structure ConvertResult where
  base64 : String
  mimeType : String
deriving DecidableEq

/-- `convertFileToBase64` (`src/api/describe.ts` lines 50-57): base64-encode
the file's bytes and take `file.type || 'image/jpeg'`. -/
def convertFileToBase64 (file : UploadFile) : ConvertResult :=
  { base64 := base64Encode file.bytes
    mimeType := jsStringOr file.type "image/jpeg" }

/-- Body of a caption-endpoint HTTP response: the JSON-encoded caption
string or an `{"error": msg}` object. -/
inductive DescribeRespBody where
  | caption (s : String)
  | err (msg : String)
deriving DecidableEq

/-- An HTTP response of the caption endpoint. -/
structure DescribeResponse where
  status : Nat
  body : DescribeRespBody
deriving DecidableEq

/-- Observable external calls of the caption handler: the single
chat-completion request, carrying the image data URL it attaches. -/
inductive DescribeEffect where
  | callChat (imageDataUrl : String)
deriving DecidableEq

/-- Outcomes of the caption handler's external operations. -/
structure DescribeEnv where
  /-- `process.env.OPENAI_API_KEY` (`none` = unset). -/
  apiKey : Option String
  /-- Outcome of `await openai.chat.completions.create(...)` for a given
  image data URL: a thrown error, or `response.choices[0]?.message?.content`
  (`none` when the choice/message/content chain is missing or undefined). -/
  chat : String → Except JsError (Option String)

/-- `generateImageDescription` (`src/api/describe.ts` lines 17-48): require
the API key, call the chat-completion API once with the image attached as
`data:<mimeType>;base64,<payload>`, and return the first choice's message
content; throw when that content is missing or empty (`!caption`). -/
def generateImageDescription (env : DescribeEnv)
    (base64Image mimeType : String) : Except JsError String × List DescribeEffect :=
  match env.apiKey with
  | none => (.error (some "OPENAI_API_KEY environment variable is required"), [])
  | some _ =>
    let url := "data:" ++ mimeType ++ ";base64," ++ base64Image
    match env.chat url with
    | .error e => (.error e, [.callChat url])
    | .ok none => (.error (some "Failed to generate caption"), [.callChat url])
    | .ok (some c) =>
      if c = "" then (.error (some "Failed to generate caption"), [.callChat url])
      else (.ok c, [.callChat url])

/-- The caption handler `POST` (`src/api/describe.ts` lines 59-85).  The
request argument is the outcome of `await request.formData()` projected to
`formData.get('image')` (`none` = field absent, i.e. `null`).  Missing file
gives 400; every thrown error is caught and returned as a 500 with the
generic message. -/
def describePOST (env : DescribeEnv)
    (req : Except JsError (Option UploadFile)) :
    DescribeResponse × List DescribeEffect :=
  match req with
  | .error _ => (⟨500, .err "Failed to process image"⟩, [])
  | .ok none => (⟨400, .err "No image file provided"⟩, [])
  | .ok (some file) =>
    let conv := convertFileToBase64 file
    match generateImageDescription env conv.base64 conv.mimeType with
    | (.error _, tr) => (⟨500, .err "Failed to process image"⟩, tr)
    | (.ok caption, tr) => (⟨200, .caption caption⟩, tr)

/-! ## Memoized model loading under cooperative scheduling
(`src/api/embed.ts` lines 9, 20-50)

Requests run on a single-threaded event loop: code between `await`
suspension points is atomic.  `getTransformers` checks-then-assigns
`transformersPromise` with no intervening `await`; `initializeModels`
suspends once (awaiting the import) and then performs the four
check-then-assign statements.  We model each check-then-assign as one
atomic step (JS cannot preempt between a check and the assignment that
follows it in the same synchronous run), but conservatively allow a yield
point between any two of them, and an arbitrary interleaving of any number
of concurrently running requests, chosen by a schedule. -/

/-- The five memoized load operations: the library import and the four
model loads started by `from_pretrained`. -/
inductive LoadSlot where
  | transformers
  | processor
  | vision
  | tokenizer
  | textModel
deriving DecidableEq

/-- The module-scope memoization state: whether each of the five
module-level promise variables has been assigned (`null` = `false`). -/
structure InitShared where
  transformers : Bool
  processor : Bool
  vision : Bool
  tokenizer : Bool
  textModel : Bool
deriving DecidableEq

/-- Whether a slot's promise variable is assigned. -/
def slotFlag (sh : InitShared) : LoadSlot → Bool
  | .transformers => sh.transformers
  | .processor => sh.processor
  | .vision => sh.vision
  | .tokenizer => sh.tokenizer
  | .textModel => sh.textModel

/-- Program counter of one request's `initializeModels` call:
`start` is about to run the `getTransformers` body, `awaitImport` is
suspended at `await getTransformers()`, the four `check*` states are about
to run the corresponding `if (!xPromise) xPromise = ...` statement. -/
inductive TaskPC where
  | start
  | awaitImport
  | checkProcessor
  | checkVision
  | checkTokenizer
  | checkText
  | done
deriving DecidableEq

/-- One atomic step of a single task: from shared state `sh` at program
counter `pc`, produce the new shared state, the next program counter, and
the load operations actually started (a load is started only when its
promise variable is still unassigned, and the variable is assigned in the
same atomic step). -/
def taskStep (sh : InitShared) : TaskPC → InitShared × TaskPC × List LoadSlot
  | .start =>
    if sh.transformers then (sh, .awaitImport, [])
    else ({ sh with transformers := true }, .awaitImport, [.transformers])
  | .awaitImport => (sh, .checkProcessor, [])
  | .checkProcessor =>
    if sh.processor then (sh, .checkVision, [])
    else ({ sh with processor := true }, .checkVision, [.processor])
  | .checkVision =>
    if sh.vision then (sh, .checkTokenizer, [])
    else ({ sh with vision := true }, .checkTokenizer, [.vision])
  | .checkTokenizer =>
    if sh.tokenizer then (sh, .checkText, [])
    else ({ sh with tokenizer := true }, .checkText, [.tokenizer])
  | .checkText =>
    if sh.textModel then (sh, .done, [])
    else ({ sh with textModel := true }, .done, [.textModel])
  | .done => (sh, .done, [])

/-- Global configuration: the shared memoization state and the program
counter of every in-flight request. -/
structure InitConfig where
  shared : InitShared
  tasks : List TaskPC
deriving DecidableEq

/-- Run the system under a schedule: at each schedule entry the named task
(by index; out-of-range picks are no-ops) takes one atomic step.  Returns
the final configuration and the concatenated log of started loads. -/
def runSched (c : InitConfig) : List Nat → InitConfig × List LoadSlot
  | [] => (c, [])
  | i :: rest =>
    match c.tasks.get? i with
    | none => runSched c rest
    | some pc =>
      let s := taskStep c.shared pc
      let r := runSched ⟨s.1, c.tasks.set i s.2.1⟩ rest
      (r.1, s.2.2 ++ r.2)

/-- The configuration of a fresh process with `n` requests about to enter
`initializeModels`: all five promise variables `null`. -/
def initConfig (n : Nat) : InitConfig :=
  ⟨⟨false, false, false, false, false⟩, List.replicate n .start⟩

/-! ## Concrete environments (used to instantiate the theorems) -/

/-- An embedding environment in which every external operation succeeds. -/
def wEmbedEnv : EmbedEnv Int Unit Unit Unit where
  importThrows := none
  loadTextThrows := none
  tokenize := fun _ => .ok ()
  textModel := fun _ => .ok [1]
  loadVisionThrows := none
  readImage := fun _ => .ok ()
  processor := fun _ => .ok ()
  visionModel := fun _ => .ok [2]

/-- An embedding environment in which `RawImage.read` throws. -/
def wEmbedEnvImgFail : EmbedEnv Int Unit Unit Unit where
  importThrows := none
  loadTextThrows := none
  tokenize := fun _ => .ok ()
  textModel := fun _ => .ok [1]
  loadVisionThrows := none
  readImage := fun _ => .error (some "bad image")
  processor := fun _ => .ok ()
  visionModel := fun _ => .ok [2]

/-- A caption environment whose chat call succeeds with a caption. -/
def wDescribeEnv : DescribeEnv where
  apiKey := some "sk-test"
  chat := fun _ => .ok (some "a cat on a mat")

/-- A caption environment whose chat call returns a choice with no
message content. -/
def wDescribeEnvNoContent : DescribeEnv where
  apiKey := some "sk-test"
  chat := fun _ => .ok none

/-- The response step never alters the accumulated trace. -/
lemma finishEmbed_snd {α : Type} (o : EmbedOut α) (tr : List EmbedEffect) :
    (finishEmbed o tr).2 = tr := by
  unfold finishEmbed
  split <;> rfl

/-- Each atomic step either starts no load for `slot` and leaves its flag
unchanged, or starts it exactly once, from an unassigned flag, assigning it. -/
lemma taskStep_cases (sh : InitShared) (pc : TaskPC) (slot : LoadSlot) :
    ((taskStep sh pc).2.2.count slot = 0 ∧
      slotFlag (taskStep sh pc).1 slot = slotFlag sh slot) ∨
    (slotFlag sh slot = false ∧ slotFlag (taskStep sh pc).1 slot = true ∧
      (taskStep sh pc).2.2.count slot = 1) := by
  rcases sh with ⟨t, p, v, k, x⟩
  cases pc <;> cases slot <;>
    cases t <;> cases p <;> cases v <;> cases k <;> cases x <;> decide

/-- Invariant: a run from a configuration where `slot`'s promise variable
is already assigned starts no further load of `slot`; from an unassigned
one it starts at most one. -/
lemma runSched_count_le (sched : List Nat) (c : InitConfig) (slot : LoadSlot) :
    (runSched c sched).2.count slot +
      (if slotFlag c.shared slot then 1 else 0) ≤ 1 := by
  induction sched generalizing c with
  | nil =>
    simp only [runSched, List.count_nil, Nat.zero_add]
    split <;> omega
  | cons i rest ih =>
    show (runSched c (i :: rest)).2.count slot + _ ≤ 1
    rw [runSched]
    cases hget : c.tasks.get? i with
    | none => exact ih c
    | some pc =>
      simp only [List.count_append]
      rcases taskStep_cases c.shared pc slot with ⟨h0, hflag⟩ | ⟨hf, ht, h1⟩
      · have := ih ⟨(taskStep c.shared pc).1, c.tasks.set i (taskStep c.shared pc).2.1⟩
        rw [hflag] at this
        omega
      · have := ih ⟨(taskStep c.shared pc).1, c.tasks.set i (taskStep c.shared pc).2.1⟩
        rw [ht] at this
        rw [hf, h1]
        simp only [if_true] at this
        simp only [if_neg (by simp : ¬(false = true))]
        omega

/-- C1: a request whose body has none of the three fields is answered with
exactly 400 and the literal message `Provide text, image_url, or
image_base64.`, and only after `initializeModels` has been attempted: the
trace of the 400 path is exactly the `initializeModels` call, and when the
library import fails the handler instead returns 500 (still with
`initializeModels` in the trace), so the invalid-request determination
comes after initialization. -/
theorem embed_empty_body_returns_400_only_after_init
    {α Tok Img Inp : Type} (env : EmbedEnv α Tok Img Inp) (body : Body)
    (ht : body.text = none) (hu : body.image_url = none)
    (hb : body.image_base64 = none) :
    (env.importThrows = none →
      embedPOST env (.ok body) =
        (⟨400, .err "Provide text, image_url, or image_base64."⟩,
          [.initModels])) ∧
    (∀ e, env.importThrows = some e →
      (embedPOST env (.ok body)).1.status = 500 ∧
      (embedPOST env (.ok body)).2 = [.initModels]) := by
  constructor
  · intro h
    simp [embedPOST, h, ht, embedAfterText, hu, hb, jsTruthy, finishEmbed]
  · intro e h
    simp [embedPOST, h]

/-- Witness for C1 at the empty body `{}` in the all-success environment. -/
theorem embed_empty_body_returns_400_only_after_init_witness :
    embedPOST wEmbedEnv (.ok ⟨none, none, none⟩) =
      (⟨400, .err "Provide text, image_url, or image_base64."⟩,
        [.initModels]) :=
  (embed_empty_body_returns_400_only_after_init wEmbedEnv
    ⟨none, none, none⟩ rfl rfl rfl).1 rfl

/-- C4: a request whose body contains only a `text` string, when
tokenization and the text model succeed with a non-empty vector, is
answered 200 with `text_embedding` equal to that non-empty vector and
`image_embedding` absent. -/
theorem embed_text_only_returns_text_embedding_only
    {α Tok Img Inp : Type} (env : EmbedEnv α Tok Img Inp) (body : Body)
    (t : String) (tok : Tok) (v : List α)
    (ht : body.text = some t) (hu : body.image_url = none)
    (hb : body.image_base64 = none)
    (himp : env.importThrows = none) (hload : env.loadTextThrows = none)
    (htok : env.tokenize t = .ok tok) (hmod : env.textModel tok = .ok v)
    (hv : v ≠ []) :
    embedPOST env (.ok body) =
      (⟨200, .out ⟨some v, none⟩⟩,
        [.initModels, .tokenizeText t, .runTextModel]) ∧ v ≠ [] := by
  refine ⟨?_, hv⟩
  simp [embedPOST, himp, ht, textBranch, hload, htok, hmod,
    embedAfterText, hu, hb, jsTruthy, finishEmbed]

/-- Witness for C4 at `{"text": "a cat"}` in the all-success environment. -/
theorem embed_text_only_returns_text_embedding_only_witness :
    embedPOST wEmbedEnv (.ok ⟨some "a cat", none, none⟩) =
      (⟨200, .out ⟨some [1], none⟩⟩,
        [.initModels, .tokenizeText "a cat", .runTextModel]) ∧
    ([1] : List Int) ≠ [] :=
  embed_text_only_returns_text_embedding_only wEmbedEnv
    ⟨some "a cat", none, none⟩ "a cat" () [1] rfl rfl rfl rfl rfl rfl rfl
    (by decide)

/-- C5: a request whose body contains a `text` string and a non-empty
`image_base64`, when both branches succeed with non-empty vectors, is
answered 200 with both `text_embedding` and `image_embedding` equal to
those non-empty vectors. -/
theorem embed_text_and_image_returns_both_embeddings
    {α Tok Img Inp : Type} (env : EmbedEnv α Tok Img Inp) (body : Body)
    (t b : String) (tok : Tok) (img : Img) (inp : Inp) (v w : List α)
    (ht : body.text = some t) (hu : body.image_url = none)
    (hb : body.image_base64 = some b) (hbne : b ≠ "")
    (himp : env.importThrows = none) (hload : env.loadTextThrows = none)
    (htok : env.tokenize t = .ok tok) (hmod : env.textModel tok = .ok v)
    (hvis : env.loadVisionThrows = none)
    (hread : env.readImage ("data:image/jpeg;base64," ++ b) = .ok img)
    (hproc : env.processor img = .ok inp)
    (hvm : env.visionModel inp = .ok w)
    (hv : v ≠ []) (hw : w ≠ []) :
    embedPOST env (.ok body) =
      (⟨200, .out ⟨some v, some w⟩⟩,
        [.initModels, .tokenizeText t, .runTextModel,
          .readImage ("data:image/jpeg;base64," ++ b), .runProcessor,
          .runVisionModel]) ∧ v ≠ [] ∧ w ≠ [] := by
  refine ⟨?_, hv, hw⟩
  simp [embedPOST, himp, ht, textBranch, hload, htok, hmod,
    embedAfterText, hu, hb, jsTruthy, hbne, imageSrc, imageBranch, hvis,
    hread, hproc, hvm, finishEmbed]

/-- Witness for C5 at `{"text": "a cat", "image_base64": "QUJD"}` in the
all-success environment. -/
theorem embed_text_and_image_returns_both_embeddings_witness :
    embedPOST wEmbedEnv (.ok ⟨some "a cat", none, some "QUJD"⟩) =
      (⟨200, .out ⟨some [1], some [2]⟩⟩,
        [.initModels, .tokenizeText "a cat", .runTextModel,
          .readImage "data:image/jpeg;base64,QUJD", .runProcessor,
          .runVisionModel]) ∧
    ([1] : List Int) ≠ [] ∧ ([2] : List Int) ≠ [] :=
  embed_text_and_image_returns_both_embeddings wEmbedEnv
    ⟨some "a cat", none, some "QUJD"⟩ "a cat" "QUJD" () () () [1] [2]
    rfl rfl rfl (by decide) rfl rfl rfl rfl rfl rfl rfl rfl
    (by decide) (by decide)

/-- C6: no partial results.  When the text branch has succeeded and the
image branch then throws, the handler returns the single 500 error response
carrying that error's message; the already-computed text embedding is
discarded (the response body is the error object, not an output object). -/
theorem embed_no_partial_results_on_image_failure
    {α Tok Img Inp : Type} (env : EmbedEnv α Tok Img Inp) (body : Body)
    (t : String) (tok : Tok) (v : List α) (e : JsError)
    (tr : List EmbedEffect)
    (ht : body.text = some t)
    (himp : env.importThrows = none) (hload : env.loadTextThrows = none)
    (htok : env.tokenize t = .ok tok) (hmod : env.textModel tok = .ok v)
    (himg : (jsTruthy body.image_url || jsTruthy body.image_base64) = true)
    (herr : imageBranch env (imageSrc body) = (.error e, tr)) :
    (embedPOST env (.ok body)).1 =
      ⟨500, .err (jsMessage e embedFallbackMsg)⟩ := by
  simp [embedPOST, himp, ht, textBranch, hload, htok, hmod,
    embedAfterText, himg, herr]

/-- Witness for C6: text succeeds, then `RawImage.read` throws on the
image; the response is the 500 with the image error's message and no
`text_embedding` survives. -/
theorem embed_no_partial_results_on_image_failure_witness :
    (embedPOST wEmbedEnvImgFail
        (.ok ⟨some "a cat", none, some "QUJD"⟩)).1 =
      ⟨500, .err "bad image"⟩ :=
  embed_no_partial_results_on_image_failure wEmbedEnvImgFail
    ⟨some "a cat", none, some "QUJD"⟩ "a cat" () [1] (some "bad image")
    [.readImage "data:image/jpeg;base64,QUJD"] rfl rfl rfl rfl rfl
    (by decide) rfl

/-- C9: a request whose image fields are present but empty strings (and
whose `text` is absent) is answered 400 with the missing-input message: the
truthiness test `image_url || image_base64` skips the image branch for
empty strings, and the trace shows only `initializeModels` ran. -/
theorem embed_empty_string_image_fields_return_400
    {α Tok Img Inp : Type} (env : EmbedEnv α Tok Img Inp) (body : Body)
    (ht : body.text = none)
    (hu : body.image_url = none ∨ body.image_url = some "")
    (hb : body.image_base64 = none ∨ body.image_base64 = some "")
    (_hpresent : body.image_url = some "" ∨ body.image_base64 = some "")
    (himp : env.importThrows = none) :
    embedPOST env (.ok body) =
      (⟨400, .err "Provide text, image_url, or image_base64."⟩,
        [.initModels]) := by
  rcases hu with hu | hu <;> rcases hb with hb | hb <;>
    simp [embedPOST, himp, ht, embedAfterText, hu, hb, jsTruthy,
      finishEmbed]

/-- Witness for C9 at `{"image_base64": ""}` in the all-success
environment. -/
theorem embed_empty_string_image_fields_return_400_witness :
    embedPOST wEmbedEnv (.ok ⟨none, none, some ""⟩) =
      (⟨400, .err "Provide text, image_url, or image_base64."⟩,
        [.initModels]) :=
  embed_empty_string_image_fields_return_400 wEmbedEnv
    ⟨none, none, some ""⟩ rfl (Or.inl rfl) (Or.inr rfl) (Or.inr rfl) rfl

/-- C10: when both `image_url` and `image_base64` are present and
non-empty, the image is read exclusively from `image_url`: the source
passed to `RawImage.read` is the URL, the trace's only read is of the URL,
and the result is computed without any hypothesis on the base64 payload's
decoding (the `image_base64` value is ignored). -/
theorem embed_image_url_takes_precedence
    {α Tok Img Inp : Type} (env : EmbedEnv α Tok Img Inp) (body : Body)
    (u b : String) (img : Img) (inp : Inp) (w : List α)
    (ht : body.text = none)
    (hu : body.image_url = some u) (hune : u ≠ "")
    (hb : body.image_base64 = some b) (hbne : b ≠ "")
    (himp : env.importThrows = none)
    (hvis : env.loadVisionThrows = none)
    (hread : env.readImage u = .ok img)
    (hproc : env.processor img = .ok inp)
    (hvm : env.visionModel inp = .ok w) :
    imageSrc body = u ∧
    embedPOST env (.ok body) =
      (⟨200, .out ⟨none, some w⟩⟩,
        [.initModels, .readImage u, .runProcessor, .runVisionModel]) := by
  have hsrc : imageSrc body = u := by
    simp [imageSrc, hu, jsTruthy, hune]
  refine ⟨hsrc, ?_⟩
  simp [embedPOST, himp, ht, embedAfterText, hu, hb, jsTruthy, hune, hbne,
    hsrc, imageBranch, hvis, hread, hproc, hvm, finishEmbed]

/-- Witness for C10 at a body carrying both a URL and a base64 payload:
the read is of the URL only. -/
theorem embed_image_url_takes_precedence_witness :
    imageSrc ⟨none, some "https://x/cat.png", some "QUJD"⟩ =
        "https://x/cat.png" ∧
    embedPOST wEmbedEnv
        (.ok ⟨none, some "https://x/cat.png", some "QUJD"⟩) =
      (⟨200, .out ⟨none, some [2]⟩⟩,
        [.initModels, .readImage "https://x/cat.png", .runProcessor,
          .runVisionModel]) :=
  embed_image_url_takes_precedence wEmbedEnv
    ⟨none, some "https://x/cat.png", some "QUJD"⟩ "https://x/cat.png"
    "QUJD" () () [2] rfl rfl (by decide) rfl (by decide) rfl rfl rfl rfl
    rfl

/-- The caption handler's trace is exactly the trace of
`generateImageDescription`, whatever its outcome. -/
lemma describePOST_trace (env : DescribeEnv) (file : UploadFile) :
    (describePOST env (.ok (some file))).2 =
      (generateImageDescription env (convertFileToBase64 file).base64
        (convertFileToBase64 file).mimeType).2 := by
  unfold describePOST
  rcases hg : generateImageDescription env (convertFileToBase64 file).base64
      (convertFileToBase64 file).mimeType with ⟨res, tr⟩
  cases res <;> simp [hg]

/-- With the API key set, `generateImageDescription` makes exactly one chat
call, attaching the image as `data:<mimeType>;base64,<payload>`. -/
lemma generateImageDescription_trace (env : DescribeEnv)
    (b m k : String) (hk : env.apiKey = some k) :
    (generateImageDescription env b m).2 =
      [.callChat ("data:" ++ m ++ ";base64," ++ b)] := by
  cases h : env.chat ("data:" ++ m ++ ";base64," ++ b) with
  | error e => simp [generateImageDescription, hk, h]
  | ok c =>
    cases c with
    | none => simp [generateImageDescription, hk, h]
    | some s =>
      by_cases hs : s = "" <;> simp [generateImageDescription, hk, h, hs]

/-- C2: a caption request whose form has no `image` field is answered with
exactly 400 and `{"error": "No image file provided"}`, with an empty
effect trace: the upstream chat-completion API is not called. -/
theorem describe_missing_image_returns_400_without_chat_call
    (env : DescribeEnv) :
    describePOST env (.ok none) =
      (⟨400, .err "No image file provided"⟩, []) :=
  rfl

/-- C3: when the chat-completion response's first choice has no message
content (undefined or the empty string), the caption handler answers 500
with the generic error body — in particular its status is never 200, so it
never returns an empty caption. -/
theorem describe_empty_caption_returns_500
    (env : DescribeEnv) (file : UploadFile) (c : Option String) (k : String)
    (hk : env.apiKey = some k)
    (hchat : env.chat ("data:" ++ (convertFileToBase64 file).mimeType ++
      ";base64," ++ (convertFileToBase64 file).base64) = .ok c)
    (hc : c = none ∨ c = some "") :
    describePOST env (.ok (some file)) =
      (⟨500, .err "Failed to process image"⟩,
        [.callChat ("data:" ++ (convertFileToBase64 file).mimeType ++
          ";base64," ++ (convertFileToBase64 file).base64)]) ∧
    (describePOST env (.ok (some file))).1.status ≠ 200 := by
  have h : describePOST env (.ok (some file)) =
      (⟨500, .err "Failed to process image"⟩,
        [.callChat ("data:" ++ (convertFileToBase64 file).mimeType ++
          ";base64," ++ (convertFileToBase64 file).base64)]) := by
    rcases hc with hc | hc <;>
      simp [describePOST, generateImageDescription, hk, hc ▸ hchat]
  exact ⟨h, by rw [h]; simp⟩

/-- Witness for C3 at a concrete file whose chat response carries no
content. -/
theorem describe_empty_caption_returns_500_witness :
    describePOST wDescribeEnvNoContent (.ok (some ⟨[77, 97, 110], ""⟩)) =
      (⟨500, .err "Failed to process image"⟩,
        [.callChat "data:image/jpeg;base64,TWFu"]) ∧
    (describePOST wDescribeEnvNoContent
      (.ok (some ⟨[77, 97, 110], ""⟩))).1.status ≠ 200 :=
  describe_empty_caption_returns_500 wDescribeEnvNoContent
    ⟨[77, 97, 110], ""⟩ none "sk-test" rfl rfl (Or.inl rfl)

/-- C8: `convertFileToBase64` returns the file's bytes base64-encoded with
the declared MIME type, substituting `image/jpeg` exactly when the declared
type is the empty string, and the data URL sent upstream is
`data:<mimeType>;base64,<payload>`. -/
theorem convert_file_base64_and_data_url
    (env : DescribeEnv) (file : UploadFile) (k : String)
    (hk : env.apiKey = some k) :
    (convertFileToBase64 file).base64 = base64Encode file.bytes ∧
    (convertFileToBase64 file).mimeType =
      (if file.type = "" then "image/jpeg" else file.type) ∧
    (describePOST env (.ok (some file))).2 =
      [.callChat ("data:" ++
        (if file.type = "" then "image/jpeg" else file.type) ++
        ";base64," ++ base64Encode file.bytes)] := by
  refine ⟨rfl, ?_, ?_⟩
  · simp [convertFileToBase64, jsStringOr]
  · rw [describePOST_trace, generateImageDescription_trace env _ _ k hk]
    simp [convertFileToBase64, jsStringOr]

/-- Witness for C8 at the bytes of `"Man"` with no declared MIME type:
the payload is `TWFu` and the MIME type defaults to `image/jpeg`. -/
theorem convert_file_base64_and_data_url_witness :
    (convertFileToBase64 ⟨[77, 97, 110], ""⟩).base64 = "TWFu" ∧
    (convertFileToBase64 ⟨[77, 97, 110], ""⟩).mimeType = "image/jpeg" ∧
    (describePOST wDescribeEnv (.ok (some ⟨[77, 97, 110], ""⟩))).2 =
      [.callChat "data:image/jpeg;base64,TWFu"] := by
  have h := convert_file_base64_and_data_url wDescribeEnv
    ⟨[77, 97, 110], ""⟩ "sk-test" rfl
  simpa using h

/-- C7: under single-threaded cooperative scheduling, for any number of
concurrent embedding requests and any interleaving, each of the five
memoized load operations (the library import and the four
`from_pretrained` loads) is started at most once per process. -/
theorem model_loads_started_at_most_once
    (n : Nat) (sched : List Nat) (slot : LoadSlot) :
    ((runSched (initConfig n) sched).2).count slot ≤ 1 := by
  have h := runSched_count_le sched (initConfig n) slot
  have hflag : slotFlag (initConfig n).shared slot = false := by
    cases slot <;> rfl
  rw [hflag] at h
  simpa using h
